import Mathlib

/-!
Verification of the Buzzdata API client (`buzzdata.py`) against its
natural-language specification.

The client is a thin facade over an HTTP transport.  We embed it shallowly:

* JSON values are the inductive type `Json`; Python `dict`s become ordered
  association lists with Python `dict` update semantics (`lookupField`,
  `setField`, `removeField`).
* The HTTP transport is an oracle `Http : Request → Response`; each facade
  method returns its result together with the list of requests it issued,
  so "performs no network call" and "exactly two network calls" are
  statements about that trace.
* Python exceptions become the `PyErr` error type of an `Except`;
  `Buzzdata.Error(response)` is the partial constructor `Buzzdata.Error.init`
  (its body can itself raise `KeyError`/`TypeError`).
-/

set_option autoImplicit false
set_option linter.unusedVariables false

/-- A JSON value as decoded by the transport (`response.json`).  Python
dicts are modelled as ordered association lists; numbers as integers
(no claim involves fractional numbers). -/
inductive Json where
  | null
  | bool (b : Bool)
  | num (n : Int)
  | str (s : String)
  | arr (items : List Json)
  | obj (fields : List (String × Json))

/-- Python truthiness of a decoded JSON value (`if json:`). -/
def Json.truthy : Json → Bool
  | .null => false
  | .bool b => b
  | .num n => n != 0
  | .str s => s ≠ ""
  | .arr items => !items.isEmpty
  | .obj fields => !fields.isEmpty

/-- Python truthiness of `response.json`, which is `None` when the body
does not parse as JSON. -/
def pyTruthy : Option Json → Bool
  | none => false
  | some j => j.truthy

/-- First binding of `key` in an association list (Python dicts have unique
keys, so this is dict lookup). -/
def lookupField : List (String × Json) → String → Option Json
  | [], _ => none
  | (k, v) :: rest, key => if k = key then some v else lookupField rest key

/-- Python dict assignment `d[key] = v`: replace the value in place when the
key is present, append the new binding otherwise. -/
def setField : List (String × Json) → String → Json → List (String × Json)
  | [], key, v => [(key, v)]
  | (k, w) :: rest, key, v =>
      if k = key then (k, v) :: rest else (k, w) :: setField rest key v

/-- Python dict `d.pop(key)`, the removal part: drop the binding of `key`. -/
def removeField : List (String × Json) → String → List (String × Json)
  | [], _ => []
  | (k, v) :: rest, key => if k = key then rest else (k, v) :: removeField rest key

/-- A Python exception, as far as the client can raise one. -/
inductive PyErr where
  /-- `KeyError` from subscripting a dict with a missing key. -/
  | keyError (key : String)
  /-- `TypeError`, e.g. from subscripting a non-dict value or `None`. -/
  | typeError
  /-- `ValueError(msg)`. -/
  | valueError (msg : String)
  /-- `AttributeError` from accessing an attribute the object lacks. -/
  | attributeError (name : String)
  /-- A raised `Buzzdata.Error` carrying status code and message. -/
  | apiError (code : Nat) (message : Json)

/-- Python `value[key]` on a decoded JSON value: dict lookup, `KeyError`
when the key is missing, `TypeError` on any non-dict. -/
def Json.getItem : Json → String → Except PyErr Json
  | .obj fields, key =>
      match lookupField fields key with
      | some v => .ok v
      | none => .error (.keyError key)
  | _, _ => .error .typeError

/-- `result[key]` where `result` is `response.json` (possibly `None`;
subscripting `None` is a `TypeError`). -/
def optGetItem : Option Json → String → Except PyErr Json
  | none, _ => .error .typeError
  | some j, key => j.getItem key

/-- The HTTP verb of a request (`self.client.get` and friends). -/
inductive HttpMethod where
  | get
  | post
  | put
  | delete

/-- One HTTP request as handed to the transport: verb, full URL, form
data, and multipart file parts `(part name, file name, content)`. -/
structure Request where
  method : HttpMethod
  url : String
  data : List (String × Json)
  files : List (String × String × String)

/-- A transport response: status code, decoded JSON body (`none` when the
body does not parse as JSON), and the raw body text. -/
structure Response where
  status_code : Nat
  json : Option Json
  text : String

/-- The transport oracle: what the remote server answers to each request. -/
def Http : Type := Request → Response

/-- The client's configuration, fixed at construction. -/
structure Buzzdata where
  api_url : String
  session_params : List (String × String)

/-- `Buzzdata.__init__`: `api_url = base_url + '/api'`; the access token,
when given, becomes a session-level query parameter. -/
def Buzzdata.init (access_token : Option String) (base_url : String) : Buzzdata :=
  ⟨base_url ++ "/api",
   match access_token with
   | none => []
   | some t => [("access_token", t)]⟩

/-- `Buzzdata.Error.__init__(self, response)`: store the status code; if
`response.json` is truthy the message is `json['message']` (which can
itself raise), otherwise the raw `response.text`.  Returns the
`(code, message)` pair the error carries, or the exception raised while
constructing it. -/
def Buzzdata.Error.init (response : Response) : Except PyErr (Nat × Json) :=
  match response.json with
  | some j =>
      if j.truthy then
        match j.getItem "message" with
        | .ok m => .ok (response.status_code, m)
        | .error e => .error e
      else
        .ok (response.status_code, .str response.text)
  | none => .ok (response.status_code, .str response.text)

/-- `raise Buzzdata.Error(response)`: the exception that actually
propagates — the structured error when its constructor succeeds, the
constructor's own exception otherwise. -/
def raisedError (response : Response) : PyErr :=
  match Buzzdata.Error.init response with
  | .ok e => .apiError e.1 e.2
  | .error pe => pe

/-- `Buzzdata._request`: send the request to `api_url + '/' + path`,
raise on `status_code > 400`, otherwise return `response.json`.  The
`params` argument is accepted but never used by the source.  The second
component is the trace of requests issued. -/
def Buzzdata._request (bz : Buzzdata) (http : Http) (method : HttpMethod)
    (path : String) (params : List (String × Json))
    (data : List (String × Json)) (files : List (String × String × String)) :
    Except PyErr (Option Json) × List Request :=
  let req : Request := ⟨method, bz.api_url ++ "/" ++ path, data, files⟩
  let response := http req
  if response.status_code > 400 then
    (.error (raisedError response), [req])
  else
    (.ok response.json, [req])

/-- `Buzzdata._get(path, **params)` (`data` and `files` default to `None`). -/
def Buzzdata._get (bz : Buzzdata) (http : Http) (path : String)
    (params : List (String × Json)) : Except PyErr (Option Json) × List Request :=
  bz._request http .get path params [] []

/-- `Buzzdata._delete(path, **params)`. -/
def Buzzdata._delete (bz : Buzzdata) (http : Http) (path : String)
    (params : List (String × Json)) : Except PyErr (Option Json) × List Request :=
  bz._request http .delete path params [] []

/-- `Buzzdata._put(path, **data)` (passes `{}` for `params`). -/
def Buzzdata._put (bz : Buzzdata) (http : Http) (path : String)
    (data : List (String × Json)) : Except PyErr (Option Json) × List Request :=
  bz._request http .put path [] data []

/-- `Buzzdata._post(path, files=None, **data)` (passes `{}` for `params`). -/
def Buzzdata._post (bz : Buzzdata) (http : Http) (path : String)
    (files : List (String × String × String)) (data : List (String × Json)) :
    Except PyErr (Option Json) × List Request :=
  bz._request http .post path [] data files

/-- `Buzzdata.licenses()`. -/
def Buzzdata.licenses (bz : Buzzdata) (http : Http) :
    Except PyErr (Option Json) × List Request :=
  bz._get http "licenses" []

/-- `Buzzdata.search(query)`: `self._get("search", term=query)`. -/
def Buzzdata.search (bz : Buzzdata) (http : Http) (query : String) :
    Except PyErr (Option Json) × List Request :=
  bz._get http "search" [("term", .str query)]

/-- `Buzzdata.datafile_history(datafile_id)`: uses only the second tuple
component. -/
def Buzzdata.datafile_history (bz : Buzzdata) (http : Http)
    (datafile_id : String × String) : Except PyErr (Option Json) × List Request :=
  bz._get http ("data_files/" ++ datafile_id.2 ++ "/history") []

/-- One escaped character of a JSON string literal, as `json.dumps`
escapes it (the claims only ever serialize plain printable strings). -/
def jsonEscapeChar (c : Char) : String :=
  if c = '"' then "\\\""
  else if c = '\\' then "\\\\"
  else if c = '\n' then "\\n"
  else if c = '\t' then "\\t"
  else if c = '\r' then "\\r"
  else String.singleton c

/-- Escape a string for a JSON literal. -/
def jsonEscape (s : String) : String :=
  String.join (s.toList.map jsonEscapeChar)

mutual

/-- Python `json.dumps` of a decoded value, with its default separators
`", "` and `": "`. -/
def Json.dumps : Json → String
  | .null => "null"
  | .bool true => "true"
  | .bool false => "false"
  | .num n => toString n
  | .str s => "\"" ++ jsonEscape s ++ "\""
  | .arr items => "[" ++ dumpsList items ++ "]"
  | .obj fields => "\x7b" ++ dumpsFields fields ++ "\x7d"

/-- Comma-separated serialization of a JSON array's items. -/
def dumpsList : List Json → String
  | [] => ""
  | [x] => x.dumps
  | x :: y :: rest => x.dumps ++ ", " ++ dumpsList (y :: rest)

/-- Comma-separated serialization of a JSON object's fields. -/
def dumpsFields : List (String × Json) → String
  | [] => ""
  | [(k, v)] => "\"" ++ jsonEscape k ++ "\": " ++ v.dumps
  | (k, v) :: f :: rest =>
      "\"" ++ jsonEscape k ++ "\": " ++ v.dumps ++ ", " ++ dumpsFields (f :: rest)

end

mutual

/-- Python `repr` of a decoded JSON value, far enough for `"%s"`
formatting of containers (string escaping inside `repr` is not
reproduced; no claim exercises it). -/
def Json.pyRepr : Json → String
  | .null => "None"
  | .bool true => "True"
  | .bool false => "False"
  | .num n => toString n
  | .str s => "'" ++ s ++ "'"
  | .arr items => "[" ++ pyReprList items ++ "]"
  | .obj fields => "\x7b" ++ pyReprFields fields ++ "\x7d"

/-- `repr` of a Python list's items, comma-separated. -/
def pyReprList : List Json → String
  | [] => ""
  | [x] => x.pyRepr
  | x :: y :: rest => x.pyRepr ++ ", " ++ pyReprList (y :: rest)

/-- `repr` of a Python dict's entries, comma-separated. -/
def pyReprFields : List (String × Json) → String
  | [] => ""
  | [(k, v)] => "'" ++ k ++ "': " ++ v.pyRepr
  | (k, v) :: f :: rest => "'" ++ k ++ "': " ++ v.pyRepr ++ ", " ++ pyReprFields (f :: rest)

end

/-- Python `str()` of a decoded JSON value, as `"%s"` formatting applies
it: a string formats as itself, scalars as Python spells them,
containers via `repr`. -/
def Json.pyStr : Json → String
  | .str s => s
  | .null => "None"
  | .bool true => "True"
  | .bool false => "False"
  | .num n => toString n
  | .arr items => Json.pyRepr (.arr items)
  | .obj fields => Json.pyRepr (.obj fields)

/-- Python `str.upper()`: character-wise uppercasing (stated structurally
over the character list so concrete strings evaluate; the claims only
uppercase ASCII strings). -/
def pyUpper (s : String) : String := ⟨s.data.map Char.toUpper⟩

/-- `Buzzdata.get_download_url(datafile_id, version=None, type='CSV')`:
uppercase the type, reject anything outside CSV/XLS/XLSX with
`ValueError`.  On a valid type the source then evaluates
`self.post_json(...)` — an attribute the class does not define — so
Python raises `AttributeError` before building the path or issuing any
request. -/
def Buzzdata.get_download_url (bz : Buzzdata) (http : Http)
    (datafile_id : String × String) (version : Option Json) (type : String) :
    Except PyErr Json × List Request :=
  let ty := pyUpper type
  if ¬(ty = "CSV" ∨ ty = "XLS" ∨ ty = "XLSX") then
    (.error (.valueError ("Unknown file type '" ++ ty ++ "'")), [])
  else
    (.error (.attributeError "post_json"), [])

/-- `Buzzdata.new_upload_request(datafile_id)`: POST to
`"%s/upload_request?datafile_uuid=%s" % datafile_id`, then extract
`result['upload_request']`. -/
def Buzzdata.new_upload_request (bz : Buzzdata) (http : Http)
    (datafile_id : String × String) : Except PyErr Json × List Request :=
  let r := bz._post http
    (datafile_id.1 ++ "/upload_request?datafile_uuid=" ++ datafile_id.2) [] []
  match r.1 with
  | .error e => (.error e, r.2)
  | .ok result => (optGetItem result "upload_request", r.2)

/-- `Buzzdata.upload_datafile(datafile_id, file, file_name, release_notes="")`:
obtain the upload ticket, `pop` its `url`, set `release_notes` in the
remaining fields, and POST the file directly to that URL (not through
`_request`, so the raw response comes back unchecked).  A ticket that is
not a dict, or whose `url` is not a string, fails before the second
request (approximating the `TypeError` Python raises in those cases). -/
def Buzzdata.upload_datafile (bz : Buzzdata) (http : Http)
    (datafile_id : String × String) (file : String) (file_name : String)
    (release_notes : String) : Except PyErr Response × List Request :=
  let r := bz.new_upload_request http datafile_id
  match r.1 with
  | .error e => (.error e, r.2)
  | .ok upload_request =>
    match upload_request with
    | .obj fields =>
      match lookupField fields "url" with
      | none => (.error (.keyError "url"), r.2)
      | some post_url =>
        let remaining := setField (removeField fields "url") "release_notes"
          (.str release_notes)
        match post_url with
        | .str u =>
          let req : Request := ⟨.post, u, remaining, [("file", file_name, file)]⟩
          (.ok (http req), r.2 ++ [req])
        | _ => (.error .typeError, r.2)
    | _ => (.error .typeError, r.2)

/-- The per-item transform of `list_visualizations`, as a pure function:
on a dict holding a `uuid`, copy it and set `id` to
`"<dataroom_id>/visualizations/<uuid>"`; other values are untouched by
this function (the method itself errors on them instead). -/
def visTransform (dataroom_id : String) (vis : Json) : Json :=
  match vis with
  | .obj fields =>
    match lookupField fields "uuid" with
    | some u =>
        .obj (setField fields "id"
          (.str (dataroom_id ++ "/visualizations/" ++ u.pyStr)))
    | none => .obj fields
  | v => v

/-- One step of the `list_visualizations` comprehension:
`dict(vis, id="%s/visualizations/%s" % (dataroom_id, vis['uuid']))`.
`vis['uuid']` raises on a missing key or a non-dict item. -/
def visItem (dataroom_id : String) (vis : Json) : Except PyErr Json :=
  match vis.getItem "uuid" with
  | .error e => .error e
  | .ok u =>
    match vis with
    | .obj fields =>
        .ok (.obj (setField fields "id"
          (.str (dataroom_id ++ "/visualizations/" ++ u.pyStr))))
    | _ => .error .typeError

/-- `Buzzdata.list_visualizations(dataroom_id)`: GET
`"<dataroom_id>/visualizations"` and rebuild each returned item with a
synthesized composite `id`.  A body that is not a JSON array cannot be
iterated as the comprehension expects (approximated as `TypeError`). -/
def Buzzdata.list_visualizations (bz : Buzzdata) (http : Http)
    (dataroom_id : String) : Except PyErr (List Json) × List Request :=
  let r := bz._get http (dataroom_id ++ "/visualizations") []
  match r.1 with
  | .error e => (.error e, r.2)
  | .ok result =>
    match result with
    | some (.arr items) => (items.mapM (visItem dataroom_id), r.2)
    | _ => (.error .typeError, r.2)

/-- `Buzzdata.create_stage(datafile_id)`: POST to
`"%s/%s/stage" % datafile_id`, return `datafile_id + (result['id'],)`. -/
def Buzzdata.create_stage (bz : Buzzdata) (http : Http)
    (datafile_id : String × String) :
    Except PyErr (String × String × Json) × List Request :=
  let r := bz._post http (datafile_id.1 ++ "/" ++ datafile_id.2 ++ "/stage") [] []
  match r.1 with
  | .error e => (.error e, r.2)
  | .ok result =>
    match optGetItem result "id" with
    | .ok stage => (.ok (datafile_id.1, datafile_id.2, stage), r.2)
    | .error e => (.error e, r.2)

/-- `Buzzdata.insert_rows(stage_id, rows)`: POST the JSON-serialized row
list to `"%s/%s/stage/%s/rows" % stage_id`. -/
def Buzzdata.insert_rows (bz : Buzzdata) (http : Http)
    (stage_id : String × String × String) (rows : Json) :
    Except PyErr (Option Json) × List Request :=
  bz._post http
    (stage_id.1 ++ "/" ++ stage_id.2.1 ++ "/stage/" ++ stage_id.2.2 ++ "/rows")
    [] [("rows", .str rows.dumps)]

/-- `Buzzdata.update_row(stage_id, row_number, row)`: PUT the
JSON-serialized row to `"%s/%s/stage/%s/rows/%d" % (stage_id + (row_number,))`. -/
def Buzzdata.update_row (bz : Buzzdata) (http : Http)
    (stage_id : String × String × String) (row_number : Int) (row : Json) :
    Except PyErr (Option Json) × List Request :=
  bz._put http
    (stage_id.1 ++ "/" ++ stage_id.2.1 ++ "/stage/" ++ stage_id.2.2 ++ "/rows/" ++
      toString row_number)
    [("row", .str row.dumps)]

/-- `Buzzdata.delete_row(stage_id, row_number)`: DELETE
`"%s/%s/stage/%s/rows/%d" % (stage_id + (row_number,))`. -/
def Buzzdata.delete_row (bz : Buzzdata) (http : Http)
    (stage_id : String × String × String) (row_number : Int) :
    Except PyErr (Option Json) × List Request :=
  bz._delete http
    (stage_id.1 ++ "/" ++ stage_id.2.1 ++ "/stage/" ++ stage_id.2.2 ++ "/rows/" ++
      toString row_number)
    []

/-- `Buzzdata.commit_stage(stage_id)`: POST to
`"%s/%s/stage/%s/commit" % stage_id`. -/
def Buzzdata.commit_stage (bz : Buzzdata) (http : Http)
    (stage_id : String × String × String) :
    Except PyErr (Option Json) × List Request :=
  bz._post http
    (stage_id.1 ++ "/" ++ stage_id.2.1 ++ "/stage/" ++ stage_id.2.2 ++ "/commit")
    [] []

/-- `Buzzdata.rollback_stage(stage_id)`: POST to
`"%s/%s/stage/%s/rollback" % stage_id`. -/
def Buzzdata.rollback_stage (bz : Buzzdata) (http : Http)
    (stage_id : String × String × String) :
    Except PyErr (Option Json) × List Request :=
  bz._post http
    (stage_id.1 ++ "/" ++ stage_id.2.1 ++ "/stage/" ++ stage_id.2.2 ++ "/rollback")
    [] []

/-- Whether an `Except` result is a raised exception. -/
def isFailure {α : Type} : Except PyErr α → Bool
  | .error _ => true
  | .ok _ => false

/-! Concrete transports and responses used by the witnesses below. -/

/-- A sample client: token-mode construction against the default host. -/
def bz0 : Buzzdata := Buzzdata.init (some "token") "https://buzzdata.com"

/-- A transport whose answer is never inspected by the calls under test. -/
def httpAny : Http := fun _ => ⟨200, none, ""⟩

/-- A 400 response with a parsed JSON body. -/
def resp400 : Response := ⟨400, some (.obj [("message", .str "bad request")]), ""⟩

/-- A transport answering `resp400` to everything. -/
def httpResp400 : Http := fun _ => resp400

/-- A 500 response with JSON body containing a `message` field. -/
def resp500 : Response :=
  ⟨500, some (.obj [("message", .str "not found")]),
   "\x7b\"message\": \"not found\"\x7d"⟩

/-- A transport answering `resp500` to everything. -/
def http500 : Http := fun _ => resp500

/-- A 401 response with a non-JSON body. -/
def resp401 : Response := ⟨401, none, "Unauthorized"⟩

/-- A transport answering `resp401` to everything. -/
def http401 : Http := fun _ => resp401

/-- A 500 response whose body parses to a truthy JSON array. -/
def respArr : Response := ⟨500, some (.arr [.num 1]), "[1]"⟩

/-- A transport answering `respArr` to everything. -/
def httpArr : Http := fun _ => respArr

/-- A 502 response whose body is a truthy JSON object without `message`. -/
def respNoMsg : Response :=
  ⟨502, some (.obj [("error", .str "bad gateway")]),
   "\x7b\"error\": \"bad gateway\"\x7d"⟩

/-- A transport answering `respNoMsg` to everything. -/
def httpNoMsg : Http := fun _ => respNoMsg

/-- A 200 response carrying a fresh stage id. -/
def respStage : Response := ⟨200, some (.obj [("id", .str "s1")]), ""⟩

/-- A transport answering `respStage` to everything. -/
def httpStage : Http := fun _ => respStage

/-- A 200 response listing one visualization. -/
def respVis : Response :=
  ⟨200, some (.arr [.obj [("uuid", .str "u1"), ("a", .num 1)]]), ""⟩

/-- A transport answering `respVis` to everything. -/
def httpVis : Http := fun _ => respVis

/-- The upload ticket returned during the upload witness scenario. -/
def ticketJson : Json :=
  .obj [("upload_request",
    .obj [("url", .str "https://up.example/x"), ("token", .str "t")])]

/-- A transport for the upload scenario: the main API answers the ticket,
the upload host answers 201. -/
def httpUpload : Http := fun req =>
  if req.url = "https://buzzdata.com/api/d/upload_request?datafile_uuid=u" then
    ⟨200, some ticketJson, ""⟩
  else
    ⟨201, none, "uploaded"⟩

/-! Helper lemmas shared by several claims. -/

/-- `_request` always issues exactly the one request it builds, whether or
not the response is an error. -/
theorem Buzzdata.request_trace (bz : Buzzdata) (http : Http) (method : HttpMethod)
    (path : String) (params data : List (String × Json))
    (files : List (String × String × String)) :
    (bz._request http method path params data files).2 =
      [⟨method, bz.api_url ++ "/" ++ path, data, files⟩] := by
  simp only [Buzzdata._request]
  split <;> rfl

/-- On a non-error status, `_request` returns the decoded JSON body. -/
theorem Buzzdata.request_ok (bz : Buzzdata) (http : Http) (method : HttpMethod)
    (path : String) (params data : List (String × Json))
    (files : List (String × String × String)) (resp : Response)
    (hresp : http ⟨method, bz.api_url ++ "/" ++ path, data, files⟩ = resp)
    (hok : resp.status_code ≤ 400) :
    (bz._request http method path params data files).1 = .ok resp.json := by
  simp only [Buzzdata._request, hresp]
  simp [Nat.not_lt.mpr hok]

/-- Setting a key makes it present with the new value. -/
theorem lookup_setField_same (fields : List (String × Json)) (key : String) (v : Json) :
    lookupField (setField fields key v) key = some v := by
  induction fields with
  | nil => simp [setField, lookupField]
  | cons kv rest ih =>
      by_cases h : kv.1 = key <;> simp [setField, lookupField, h, ih]

/-- Setting a key leaves every other key's binding unchanged. -/
theorem lookup_setField_other (fields : List (String × Json)) (key key' : String)
    (v : Json) (h : key' ≠ key) :
    lookupField (setField fields key v) key' = lookupField fields key' := by
  induction fields with
  | nil => simp [setField, lookupField, Ne.symm h]
  | cons kv rest ih =>
      obtain ⟨k, w⟩ := kv
      by_cases hk : k = key
      · subst hk
        simp [setField, lookupField, Ne.symm h]
      · simp [setField, lookupField, hk, ih]

/-- C1: for every facade call routed through `_request` and every transport
response, the error is raised exactly when the response status code is
strictly greater than 400; a response with status exactly 400 does not
raise, and its parsed body is returned; and when the error constructor
succeeds, the raised exception is the structured API error. -/
theorem C1_error_threshold (bz : Buzzdata) (http : Http) (method : HttpMethod)
    (path : String) (params data : List (String × Json))
    (files : List (String × String × String)) (resp : Response)
    (hresp : http ⟨method, bz.api_url ++ "/" ++ path, data, files⟩ = resp) :
    (isFailure (bz._request http method path params data files).1 = true
      ↔ 400 < resp.status_code)
    ∧ (resp.status_code = 400 →
        (bz._request http method path params data files).1 = .ok resp.json)
    ∧ (∀ c m, Buzzdata.Error.init resp = .ok (c, m) →
        ((bz._request http method path params data files).1 = .error (.apiError c m)
          ↔ 400 < resp.status_code)) := by
  refine ⟨?_, ?_, ?_⟩
  · simp only [Buzzdata._request, hresp]
    by_cases h : 400 < resp.status_code <;> simp [h, isFailure]
  · intro h400
    simp only [Buzzdata._request, hresp]
    simp [h400]
  · intro c m hinit
    simp only [Buzzdata._request, hresp]
    by_cases h : 400 < resp.status_code <;>
      simp [h, raisedError, hinit]

/-- Witness for C1 at a concrete 400 response: no error is raised and the
parsed body comes back. -/
theorem C1_error_threshold_witness :
    (isFailure (bz0._request httpResp400 .get "licenses" [] [] []).1 = true
      ↔ 400 < resp400.status_code)
    ∧ (resp400.status_code = 400 →
        (bz0._request httpResp400 .get "licenses" [] [] []).1 = .ok resp400.json)
    ∧ (∀ c m, Buzzdata.Error.init resp400 = .ok (c, m) →
        ((bz0._request httpResp400 .get "licenses" [] [] []).1 = .error (.apiError c m)
          ↔ 400 < resp400.status_code)) :=
  C1_error_threshold bz0 httpResp400 .get "licenses" [] [] [] resp400 rfl

/-- C2 counterexample: a facade call whose transport answers status 401
raises the structured API error, so 401 IS treated as an error — the
claim that no error is raised for a 401 response is false. -/
theorem C2_counterexample :
    (bz0.search http401 "q").1 = .error (.apiError 401 (.str "Unauthorized")) := rfl

/-- C2 amended: under the strictly-greater-than-400 rule a 401 response IS
treated as an error — for every facade call routed through `_request`, a
401 response raises; the only status the rule exempts relative to a
greater-or-equal rule is 400 itself. -/
theorem C2_amended_401_raises (bz : Buzzdata) (http : Http) (method : HttpMethod)
    (path : String) (params data : List (String × Json))
    (files : List (String × String × String))
    (h401 : (http ⟨method, bz.api_url ++ "/" ++ path, data, files⟩).status_code = 401) :
    isFailure (bz._request http method path params data files).1 = true := by
  simp only [Buzzdata._request, h401]
  simp [isFailure]

/-- Witness for the amended C2 at a concrete 401 response. -/
theorem C2_amended_401_raises_witness :
    isFailure (bz0._request http401 .get "licenses" [] [] []).1 = true :=
  C2_amended_401_raises bz0 http401 .get "licenses" [] [] [] rfl

/-- C3: evaluating `get_download_url` at a valid (case-normalizable) type:
the source calls `self.post_json`, which the class does not define, so the
call raises `AttributeError` and issues no request — it never POSTs a
download-request nor extracts `download_request.url` as specified. -/
theorem C3_missing_post_method :
    bz0.get_download_url httpAny ("dept", "uuid1") none "csv" =
      (.error (.attributeError "post_json"), []) := rfl

/-- C5: for every `type` whose uppercasing is outside CSV/XLS/XLSX,
`get_download_url` raises `ValueError` synchronously and issues no
request (the client value itself is immutable in this embedding, so no
client state can change). -/
theorem C5_invalid_type (bz : Buzzdata) (http : Http)
    (datafile_id : String × String) (version : Option Json) (type : String)
    (h : ¬(pyUpper type = "CSV" ∨ pyUpper type = "XLS" ∨ pyUpper type = "XLSX")) :
    bz.get_download_url http datafile_id version type =
      (.error (.valueError ("Unknown file type '" ++ pyUpper type ++ "'")), []) := by
  simp [Buzzdata.get_download_url, h]

/-- Witness for C5 at the two example inputs `"PDF"` (given in lowercase,
showing normalization reaches the message) and the empty string. -/
theorem C5_invalid_type_witness :
    bz0.get_download_url httpAny ("d", "u") none "pdf" =
      (.error (.valueError "Unknown file type 'PDF'"), [])
    ∧ bz0.get_download_url httpAny ("d", "u") none "" =
      (.error (.valueError "Unknown file type ''"), []) :=
  ⟨C5_invalid_type bz0 httpAny ("d", "u") none "pdf" (by decide),
   C5_invalid_type bz0 httpAny ("d", "u") none "" (by decide)⟩

/-- C4: whenever the error raised by `_request` is the structured API
error, it carries the response's status code, and its message is the JSON
body's `message` field when the body parses as JSON (carrying that field),
otherwise the raw response body text. -/
theorem C4_error_payload (bz : Buzzdata) (http : Http) (method : HttpMethod)
    (path : String) (params data : List (String × Json))
    (files : List (String × String × String)) (resp : Response)
    (hresp : http ⟨method, bz.api_url ++ "/" ++ path, data, files⟩ = resp)
    (hgt : 400 < resp.status_code) :
    (∀ fields m, resp.json = some (.obj fields) →
      lookupField fields "message" = some m →
      (bz._request http method path params data files).1 =
        .error (.apiError resp.status_code m))
    ∧ (resp.json = none →
      (bz._request http method path params data files).1 =
        .error (.apiError resp.status_code (.str resp.text))) := by
  constructor
  · intro fields m hj hm
    have htr : Json.truthy (.obj fields) = true := by
      cases fields with
      | nil => simp [lookupField] at hm
      | cons f rest => simp [Json.truthy]
    simp only [Buzzdata._request, hresp]
    rw [if_pos hgt]
    simp only [raisedError, Buzzdata.Error.init, hj, htr, Json.getItem, hm, if_pos]
  · intro hn
    simp only [Buzzdata._request, hresp]
    rw [if_pos hgt]
    simp [raisedError, Buzzdata.Error.init, hn]

/-- Witness for C4 at the spec's example: a mocked 500 response with body
containing message "not found" makes a facade method raise the structured
error with code 500 and that message. -/
theorem C4_error_payload_witness :
    (bz0.search http500 "anything").1 = .error (.apiError 500 (.str "not found")) :=
  (C4_error_payload bz0 http500 .get "search" [("term", .str "anything")] [] []
      resp500 rfl (by decide)).1
    [("message", .str "not found")] (.str "not found") rfl rfl

/-- C10 counterexample: a response whose body parses to the truthy JSON
value `[1]` — which has no message key — makes the error construction
fail with a `TypeError`, not the key-lookup error the claim states. -/
theorem C10_counterexample :
    Buzzdata.Error.init respArr = .error PyErr.typeError
    ∧ (bz0.licenses httpArr).1 = .error PyErr.typeError := ⟨rfl, rfl⟩

/-- C10 amended: on an error-status response whose body parses as a truthy
JSON object without a message key, constructing the API error fails with
the key-lookup error (a truthy non-object fails with a type error
instead); the raw-body-text fallback is taken exactly when the body does
not parse as JSON or parses to a falsy value — a truthy body always goes
through the message lookup. -/
theorem C10_amended_message_lookup (bz : Buzzdata) (http : Http) (method : HttpMethod)
    (path : String) (params data : List (String × Json))
    (files : List (String × String × String)) (resp : Response)
    (hresp : http ⟨method, bz.api_url ++ "/" ++ path, data, files⟩ = resp)
    (hgt : 400 < resp.status_code) :
    (∀ fields, resp.json = some (.obj fields) →
      Json.truthy (.obj fields) = true →
      lookupField fields "message" = none →
      Buzzdata.Error.init resp = .error (.keyError "message")
      ∧ (bz._request http method path params data files).1 =
          .error (.keyError "message"))
    ∧ (pyTruthy resp.json = false →
      Buzzdata.Error.init resp = .ok (resp.status_code, .str resp.text))
    ∧ (∀ j, resp.json = some j → j.truthy = true →
      Buzzdata.Error.init resp =
        (j.getItem "message").map (fun m => (resp.status_code, m))) := by
  refine ⟨?_, ?_, ?_⟩
  · intro fields hj htr hm
    have hinit : Buzzdata.Error.init resp = .error (.keyError "message") := by
      simp only [Buzzdata.Error.init, hj, htr, Json.getItem, hm, if_pos]
    refine ⟨hinit, ?_⟩
    simp only [Buzzdata._request, hresp]
    rw [if_pos hgt]
    simp [raisedError, hinit]
  · intro hfalse
    cases hj : resp.json with
    | none => simp [Buzzdata.Error.init, hj]
    | some j =>
        rw [hj] at hfalse
        simp only [pyTruthy] at hfalse
        simp [Buzzdata.Error.init, hj, hfalse]
  · intro j hj htr
    cases hgi : j.getItem "message" with
    | ok m => simp [Buzzdata.Error.init, hj, htr, hgi, Except.map]
    | error e => simp [Buzzdata.Error.init, hj, htr, hgi, Except.map]

/-- Witness for the amended C10: a 502 response with truthy JSON object
body lacking `message` raises `KeyError` from inside the error
constructor. -/
theorem C10_amended_message_lookup_witness :
    Buzzdata.Error.init respNoMsg = .error (.keyError "message")
    ∧ (bz0._request httpNoMsg .get "licenses" [] [] []).1 =
        .error (.keyError "message") :=
  (C10_amended_message_lookup bz0 httpNoMsg .get "licenses" [] [] []
      respNoMsg rfl (by decide)).1
    [("error", .str "bad gateway")] rfl rfl rfl

/-- C9: the keyword query parameters collected by `_get`/`_delete` are
handed to `_request` but never used: the request is sent to exactly
`api_url + '/' + path` with empty form data and no component derived from
`params`, so `search(q1)` and `search(q2)` behave identically. -/
theorem C9_params_unused (bz : Buzzdata) (http : Http) (method : HttpMethod)
    (path : String) (params1 params2 data : List (String × Json))
    (files : List (String × String × String)) (q1 q2 : String) :
    bz._request http method path params1 data files =
      bz._request http method path params2 data files
    ∧ (bz._get http path params1).2 =
        [⟨.get, bz.api_url ++ "/" ++ path, [], []⟩]
    ∧ (bz._delete http path params1).2 =
        [⟨.delete, bz.api_url ++ "/" ++ path, [], []⟩]
    ∧ bz.search http q1 = bz.search http q2 := by
  refine ⟨rfl, ?_, ?_, rfl⟩
  · exact Buzzdata.request_trace bz http .get path params1 [] []
  · exact Buzzdata.request_trace bz http .delete path params1 [] []

/-- C8: every staging operation and the upload-request endpoint compose
the request path from the compound identifier's components in order
(dataroom id, then datafile uuid, then stage id, then row number), and
`create_stage` returns the input `datafile_id` tuple extended at the end
with the server's new stage id. -/
theorem C8_compound_id_order (bz : Buzzdata) (http : Http)
    (df : String × String) (st : String × String × String) (n : Int)
    (rows row : Json) (resp : Response) (stage : Json)
    (hresp : http ⟨.post, bz.api_url ++ "/" ++ (df.1 ++ "/" ++ df.2 ++ "/stage"), [], []⟩ = resp)
    (hok : resp.status_code ≤ 400)
    (hid : optGetItem resp.json "id" = .ok stage) :
    (bz.create_stage http df).1 = .ok (df.1, df.2, stage)
    ∧ (bz.create_stage http df).2 =
        [⟨.post, bz.api_url ++ "/" ++ (df.1 ++ "/" ++ df.2 ++ "/stage"), [], []⟩]
    ∧ (bz.new_upload_request http df).2 =
        [⟨.post, bz.api_url ++ "/" ++ (df.1 ++ "/upload_request?datafile_uuid=" ++ df.2), [], []⟩]
    ∧ (bz.insert_rows http st rows).2 =
        [⟨.post, bz.api_url ++ "/" ++ (st.1 ++ "/" ++ st.2.1 ++ "/stage/" ++ st.2.2 ++ "/rows"),
          [("rows", .str rows.dumps)], []⟩]
    ∧ (bz.update_row http st n row).2 =
        [⟨.put, bz.api_url ++ "/" ++ (st.1 ++ "/" ++ st.2.1 ++ "/stage/" ++ st.2.2 ++ "/rows/"
            ++ toString n), [("row", .str row.dumps)], []⟩]
    ∧ (bz.delete_row http st n).2 =
        [⟨.delete, bz.api_url ++ "/" ++ (st.1 ++ "/" ++ st.2.1 ++ "/stage/" ++ st.2.2 ++ "/rows/"
            ++ toString n), [], []⟩]
    ∧ (bz.commit_stage http st).2 =
        [⟨.post, bz.api_url ++ "/" ++ (st.1 ++ "/" ++ st.2.1 ++ "/stage/" ++ st.2.2 ++ "/commit"),
          [], []⟩]
    ∧ (bz.rollback_stage http st).2 =
        [⟨.post, bz.api_url ++ "/" ++ (st.1 ++ "/" ++ st.2.1 ++ "/stage/" ++ st.2.2 ++ "/rollback"),
          [], []⟩] := by
  have h1 : (bz._request http .post (df.1 ++ "/" ++ df.2 ++ "/stage") [] [] []).1 =
      .ok resp.json :=
    Buzzdata.request_ok bz http .post (df.1 ++ "/" ++ df.2 ++ "/stage") [] [] [] resp hresp hok
  refine ⟨?_, ?_, ?_, ?_, ?_, ?_, ?_, ?_⟩
  · simp only [Buzzdata.create_stage, Buzzdata._post, h1, hid]
  · simp only [Buzzdata.create_stage, Buzzdata._post, h1, hid]
    exact Buzzdata.request_trace bz http .post (df.1 ++ "/" ++ df.2 ++ "/stage") [] [] []
  · simp only [Buzzdata.new_upload_request, Buzzdata._post]
    cases (bz._request http .post (df.1 ++ "/upload_request?datafile_uuid=" ++ df.2) [] [] []).1 <;>
      exact Buzzdata.request_trace bz http .post
        (df.1 ++ "/upload_request?datafile_uuid=" ++ df.2) [] [] []
  · exact Buzzdata.request_trace bz http .post
      (st.1 ++ "/" ++ st.2.1 ++ "/stage/" ++ st.2.2 ++ "/rows") [] [("rows", .str rows.dumps)] []
  · exact Buzzdata.request_trace bz http .put
      (st.1 ++ "/" ++ st.2.1 ++ "/stage/" ++ st.2.2 ++ "/rows/" ++ toString n) []
      [("row", .str row.dumps)] []
  · exact Buzzdata.request_trace bz http .delete
      (st.1 ++ "/" ++ st.2.1 ++ "/stage/" ++ st.2.2 ++ "/rows/" ++ toString n) [] [] []
  · exact Buzzdata.request_trace bz http .post
      (st.1 ++ "/" ++ st.2.1 ++ "/stage/" ++ st.2.2 ++ "/commit") [] [] []
  · exact Buzzdata.request_trace bz http .post
      (st.1 ++ "/" ++ st.2.1 ++ "/stage/" ++ st.2.2 ++ "/rollback") [] [] []

/-- Witness for C8: concrete stage creation extends `("d", "u")` with the
returned stage id, and a concrete `update_row` call addresses the
components in order, row number last. -/
theorem C8_compound_id_order_witness :
    (bz0.create_stage httpStage ("d", "u")).1 = .ok ("d", "u", .str "s1")
    ∧ (bz0.update_row httpStage ("d", "u", "s1") 3 (.obj [])).2 =
        [⟨.put, "https://buzzdata.com/api/d/u/stage/s1/rows/3",
          [("row", .str (Json.dumps (.obj [])))], []⟩] :=
  ⟨(C8_compound_id_order bz0 httpStage ("d", "u") ("d", "u", "s1") 3 (.arr []) (.obj [])
      respStage (.str "s1") rfl (by decide) rfl).1,
   (C8_compound_id_order bz0 httpStage ("d", "u") ("d", "u", "s1") 3 (.arr []) (.obj [])
      respStage (.str "s1") rfl (by decide) rfl).2.2.2.2.1⟩

/-- When every item of the list is a dict carrying a `uuid`, the
comprehension of `list_visualizations` succeeds and equals the pure
per-item transform. -/
theorem visItem_mapM (droom : String) (items : List Json)
    (h : ∀ vis ∈ items, ∃ fields u, vis = .obj fields ∧ lookupField fields "uuid" = some u) :
    items.mapM (visItem droom) = .ok (items.map (visTransform droom)) := by
  induction items with
  | nil => rfl
  | cons x xs ih =>
      obtain ⟨fields, u, hx, hu⟩ := h x (List.mem_cons_self x xs)
      have ihh := ih (fun v hv => h v (List.mem_cons_of_mem x hv))
      subst hx
      have hvi : visItem droom (.obj fields) =
          .ok (.obj (setField fields "id"
            (.str (droom ++ "/visualizations/" ++ u.pyStr)))) := by
        simp [visItem, Json.getItem, hu]
      have hvt : visTransform droom (.obj fields) =
          .obj (setField fields "id"
            (.str (droom ++ "/visualizations/" ++ u.pyStr))) := by
        simp [visTransform, hu]
      rw [List.mapM_cons, hvi, ihh, List.map_cons, hvt]
      rfl

/-- C7: when the transport returns a list of items each carrying a `uuid`,
`list_visualizations` returns one output item per input item whose `id`
binding is the synthesized `"<dataroom_id>/visualizations/<uuid>"`, with
every other binding preserved unchanged. -/
theorem C7_list_visualizations_id (bz : Buzzdata) (http : Http)
    (dataroom_id : String) (items : List Json) (resp : Response)
    (hresp : http ⟨.get, bz.api_url ++ "/" ++ (dataroom_id ++ "/visualizations"), [], []⟩ = resp)
    (hok : resp.status_code ≤ 400)
    (hjson : resp.json = some (.arr items))
    (h : ∀ vis ∈ items, ∃ fields u, vis = .obj fields ∧ lookupField fields "uuid" = some u) :
    (bz.list_visualizations http dataroom_id).1 =
      .ok (items.map (visTransform dataroom_id))
    ∧ (∀ fields u, lookupField fields "uuid" = some u →
        visTransform dataroom_id (.obj fields) =
          .obj (setField fields "id"
            (.str (dataroom_id ++ "/visualizations/" ++ u.pyStr))))
    ∧ (∀ fields v, lookupField (setField fields "id" v) "id" = some v)
    ∧ (∀ fields v key, key ≠ "id" →
        lookupField (setField fields "id" v) key = lookupField fields key) := by
  refine ⟨?_, ?_, ?_, ?_⟩
  · have h1 : (bz._request http .get (dataroom_id ++ "/visualizations") [] [] []).1 =
        .ok resp.json :=
      Buzzdata.request_ok bz http .get (dataroom_id ++ "/visualizations") [] [] [] resp hresp hok
    simp only [Buzzdata.list_visualizations, Buzzdata._get, h1, hjson]
    exact visItem_mapM dataroom_id items h
  · intro fields u hu
    simp [visTransform, hu]
  · intro fields v
    exact lookup_setField_same fields "id" v
  · intro fields v key hk
    exact lookup_setField_other fields "id" key v hk

/-- Witness for C7 at a concrete one-item listing: the `uuid` and other
fields survive and the composite `id` is appended. -/
theorem C7_list_visualizations_id_witness :
    (bz0.list_visualizations httpVis "room").1 =
      .ok [.obj [("uuid", .str "u1"), ("a", .num 1),
                 ("id", .str "room/visualizations/u1")]] :=
  (C7_list_visualizations_id bz0 httpVis "room"
      [.obj [("uuid", .str "u1"), ("a", .num 1)]] respVis rfl (by decide) rfl
      (by
        intro vis hv
        rw [List.mem_singleton] at hv
        subst hv
        exact ⟨[("uuid", .str "u1"), ("a", .num 1)], .str "u1", rfl, rfl⟩)).1

/-- C6: `upload_datafile` performs exactly two network calls — first the
`new_upload_request` POST obtaining the ticket, then a direct multipart
POST to the URL removed from the ticket, whose form data is the remaining
ticket fields with `release_notes` set, and whose file part carries the
file content under the given file name. -/
theorem C6_upload_two_calls (bz : Buzzdata) (http : Http) (df : String × String)
    (file file_name release_notes : String) (resp1 : Response)
    (fields : List (String × Json)) (url : String)
    (hresp : http ⟨.post, bz.api_url ++ "/" ++ (df.1 ++ "/upload_request?datafile_uuid=" ++ df.2),
        [], []⟩ = resp1)
    (hok : resp1.status_code ≤ 400)
    (hticket : optGetItem resp1.json "upload_request" = .ok (.obj fields))
    (hurl : lookupField fields "url" = some (.str url)) :
    bz.upload_datafile http df file file_name release_notes =
      (.ok (http ⟨.post, url,
          setField (removeField fields "url") "release_notes" (.str release_notes),
          [("file", file_name, file)]⟩),
       [⟨.post, bz.api_url ++ "/" ++ (df.1 ++ "/upload_request?datafile_uuid=" ++ df.2), [], []⟩,
        ⟨.post, url,
          setField (removeField fields "url") "release_notes" (.str release_notes),
          [("file", file_name, file)]⟩]) := by
  have h1 : (bz._request http .post (df.1 ++ "/upload_request?datafile_uuid=" ++ df.2)
      [] [] []).1 = .ok resp1.json :=
    Buzzdata.request_ok bz http .post (df.1 ++ "/upload_request?datafile_uuid=" ++ df.2)
      [] [] [] resp1 hresp hok
  have h2 : bz.new_upload_request http df =
      (.ok (.obj fields),
       [⟨.post, bz.api_url ++ "/" ++ (df.1 ++ "/upload_request?datafile_uuid=" ++ df.2),
         [], []⟩]) := by
    simp only [Buzzdata.new_upload_request, Buzzdata._post, h1, hticket,
      Buzzdata.request_trace]
  simp only [Buzzdata.upload_datafile, h2, hurl]
  simp

/-- Witness for C6: a concrete two-call upload whose first call fetches
the ticket and whose second call posts the file to the ticket's URL with
the remaining field plus `release_notes` as form data. -/
theorem C6_upload_two_calls_witness :
    bz0.upload_datafile httpUpload ("d", "u") "CONTENT" "data.csv" "v2" =
      (.ok ⟨201, none, "uploaded"⟩,
       [⟨.post, "https://buzzdata.com/api/d/upload_request?datafile_uuid=u", [], []⟩,
        ⟨.post, "https://up.example/x",
          [("token", .str "t"), ("release_notes", .str "v2")],
          [("file", "data.csv", "CONTENT")]⟩]) :=
  C6_upload_two_calls bz0 httpUpload ("d", "u") "CONTENT" "data.csv" "v2"
    ⟨200, some ticketJson, ""⟩
    [("url", .str "https://up.example/x"), ("token", .str "t")]
    "https://up.example/x" rfl (by decide) rfl rfl
